import Mathlib

/-!
Shallow embedding of the OCRpdf repository (src/ocr_pdf.py, src/error_handlers.py).

The program converts scanned PDFs to searchable PDFs: it validates the input and
output paths, rasterizes each page (PyMuPDF), runs per-page OCR (tesseract),
assembles the per-page PDFs (PyPDF2) and optionally compresses the result.
External capabilities (the PDF renderer, the OCR engine, the PDF reader/writer,
the real filesystem) are modelled as oracles; the control flow, the validation
logic, the error taxonomy and the message strings are translated directly from
the source.
-/

set_option linter.unusedVariables false

namespace OCRpdf

/-! ## Error taxonomy (src/error_handlers.py, classes PdfOcrError / InputFileError /
TesseractError / OutputError).  In Python the three specific kinds subclass
PdfOcrError; otherExc stands for any exception outside this taxonomy. -/

inductive Exc where
  | pdfOcrError (msg : String)
  | inputFileError (msg : String)
  | tesseractError (msg : String)
  | outputError (msg : String)
  | otherExc (msg : String)
deriving DecidableEq

/-- The Python test isinstance(e, PdfOcrError): true for the base class and all
three subclasses, false for any other exception. -/
def Exc.isPdfOcrError : Exc → Bool
  | .otherExc _ => false
  | _ => true

/-- The Python str(e) of an exception: its message. -/
def Exc.msg : Exc → String
  | .pdfOcrError m => m
  | .inputFileError m => m
  | .tesseractError m => m
  | .outputError m => m
  | .otherExc m => m

/-! ## Path arithmetic (Python pathlib / os.path as used by the source).
Paths are strings; name, parent, suffix and stem follow the CPython pathlib
semantics for the cases exercised by the program. -/

def dropTrailingSlashes (l : List Char) : List Char :=
  ((l.reverse).dropWhile (fun c => c = '/')).reverse

/-- Final path component (pathlib Path.name), as a character list. -/
def pathNameL (l : List Char) : List Char :=
  (((dropTrailingSlashes l).reverse).takeWhile (fun c => c ≠ '/')).reverse

/-- Path.parent: drop the final component; "." when there is no directory part,
"/" when only the root remains. -/
def pathParentL (l : List Char) : List Char :=
  let l1 := dropTrailingSlashes l
  let rest := ((l1.reverse).dropWhile (fun c => c ≠ '/')).reverse
  let rest1 := dropTrailingSlashes rest
  if rest1.isEmpty then (if rest.isEmpty then ['.'] else ['/']) else rest1

/-- Path.suffix: the extension of the final component including the dot, empty
when there is no dot, when the only dot is the leading character (hidden file),
or when the dot is the final character. -/
def pathSuffixL (l : List Char) : List Char :=
  let n := pathNameL l
  let afterRev := (n.reverse).takeWhile (fun c => c ≠ '.')
  if afterRev.isEmpty then []
  else if afterRev.length = n.length then []
  else if afterRev.length + 1 = n.length then []
  else '.' :: afterRev.reverse

/-- Path.stem: the final component without its suffix. -/
def pathStemL (l : List Char) : List Char :=
  let n := pathNameL l
  n.take (n.length - (pathSuffixL l).length)

def pathName (p : String) : String := String.mk (pathNameL p.toList)

def pathParent (p : String) : String := String.mk (pathParentL p.toList)

def pathSuffix (p : String) : String := String.mk (pathSuffixL p.toList)

def pathStem (p : String) : String := String.mk (pathStemL p.toList)

/-- Python str.lower restricted to ASCII as used for the extension check. -/
def strToLower (s : String) : String := String.mk (s.toList.map Char.toLower)

/-- Does the pattern occur at the head of the list. -/
def listStartsWith : List Char → List Char → Bool
  | [], _ => true
  | _ :: _, [] => false
  | a :: as, b :: bs => (a == b) && listStartsWith as bs

/-- Does the pattern occur anywhere in the list. -/
def listContainsSub (pat : List Char) : List Char → Bool
  | [] => pat.isEmpty
  | c :: rest => listStartsWith pat (c :: rest) || listContainsSub pat rest

/-- Substring test (used only in theorem statements, to express that a message
does or does not mention a file name). -/
def strContains (s pat : String) : Bool := listContainsSub pat.toList s.toList

/-- Does the path already end in a separator. -/
def strEndsWithSlash (s : String) : Bool :=
  match s.toList.getLast? with
  | some c => c == '/'
  | none => false

/-- pathlib: str(parent / name).  Path(".") / n is Path(n); otherwise the two
parts are joined with a slash. -/
def pathJoin (d n : String) : String :=
  if d = "." then n else if strEndsWithSlash d then d ++ n else d ++ "/" ++ n

/-- os.path.join(d, n) for a relative final component. -/
def osPathJoin (d n : String) : String :=
  if strEndsWithSlash d then d ++ n else d ++ "/" ++ n

/-! ## Filesystem model.  The durable filesystem outside the scoped temporary
workspace: which paths are regular files, which are directories, and whether
os.makedirs raises OSError on a given path (mkdirFail gives the OSError text).
Artifacts inside the per-run temporary directory are scoped to the run and
destroyed with it, so they are not tracked here. -/

structure FS where
  isFile : String → Bool
  isDir : String → Bool
  mkdirFail : String → Option String

/-- Python Path.exists(): a file or a directory. -/
def FS.existsPath (fs : FS) (p : String) : Bool := fs.isFile p || fs.isDir p

/-- The chain p, parent p, parent (parent p), ...; fuel bounds the recursion. -/
def parentChain : Nat → String → List String
  | 0, _ => []
  | fuel + 1, p => p :: parentChain fuel (pathParent p)

/-- os.makedirs(p, exist_ok=True) when it succeeds: p and all its ancestors
become directories. -/
def FS.mkdirs (fs : FS) (p : String) : FS :=
  let created := parentChain (p.length + 1) p
  { fs with isDir := fun q => fs.isDir q || created.contains q }

/-- os.makedirs(p, exist_ok=True): raises OSError (with the oracle text) or
succeeds creating the directories. -/
def osMakedirs (fs : FS) (p : String) : Except String FS :=
  match fs.mkdirFail p with
  | some m => .error m
  | none => .ok (fs.mkdirs p)

/-- Creating a file (open(p, "wb") followed by a successful write). -/
def FS.writeFile (fs : FS) (p : String) : FS :=
  { fs with isFile := fun q => q == p || fs.isFile q }

/-! ## Validators (src/error_handlers.py). -/

/-- verify_input_file (error_handlers.py lines 66-85): the input must exist, be
a regular file, and carry a .pdf extension compared case-insensitively. -/
def verify_input_file (fs : FS) (file_path : String) : Except Exc Unit :=
  if !(fs.existsPath file_path) then
    .error (.inputFileError ("Input file not found: " ++ file_path))
  else if !(fs.isFile file_path) then
    .error (.inputFileError ("Input path is not a file: " ++ file_path))
  else if strToLower (pathSuffix file_path) ≠ ".pdf" then
    .error (.inputFileError ("Input file is not a PDF: " ++ file_path))
  else .ok ()

/-- verify_output_location (error_handlers.py lines 88-121).  Returns the
outcome together with the filesystem as mutated so far (the parent directory may
have been created even when a later check fails). -/
def verify_output_location (fs : FS) (output_path : String) (is_directory : Bool) :
    Except Exc Unit × FS :=
  let parent := pathParent output_path
  match (if fs.existsPath parent then Except.ok fs else osMakedirs fs parent) with
  | .error m => (.error (.outputError ("Cannot create output directory: " ++ m)), fs)
  | .ok fs1 =>
    if is_directory then
      if fs1.existsPath output_path && !(fs1.isDir output_path) then
        (.error (.outputError ("Output path exists but is not a directory: " ++ output_path)), fs1)
      else
        match osMakedirs fs1 output_path with
        | .error m => (.error (.outputError ("Cannot create output directory: " ++ m)), fs1)
        | .ok fs2 => (.ok (), fs2)
    else
      if fs1.existsPath output_path && !(fs1.isFile output_path) then
        (.error (.outputError ("Output path exists but is not a file: " ++ output_path)), fs1)
      else (.ok (), fs1)

/-! ## The processor (src/ocr_pdf.py, class PdfOcr). -/

/-- PdfOcr.__init__ state (ocr_pdf.py lines 26-44).  The two dependency checks
(verify_tesseract_installed, verify_pymupdf_installed) concern the process
environment, not a run, and are not modelled. -/
structure PdfOcr where
  dpi : Int
  language : String
  optimize_size : Bool

/-- ocr_pdf.py line 40: self.ocr_dpi = min(dpi, 200) if optimize_size else dpi. -/
def PdfOcr.ocr_dpi (p : PdfOcr) : Int :=
  if p.optimize_size then min p.dpi 200 else p.dpi

/-- ocr_pdf.py line 176: zoom = self.ocr_dpi / 72.0 (float division modelled as
exact rational division). -/
def PdfOcr.zoom (p : PdfOcr) : Rat := (p.ocr_dpi : Rat) / 72

/-- ocr_pdf.py line 177: mat = fitz.Matrix(zoom, zoom) - the same factor on both
axes. -/
def PdfOcr.fitzMatZoom (p : PdfOcr) : Rat × Rat := (p.zoom, p.zoom)

/-- Outcome of one page of the OCR stage (ocr_pdf.py lines 82-92): the tesseract
call of _ocr_page may raise (ocrFail, wrapped into TesseractError at lines
235-236), the PdfReader construction may raise a non-domain exception
(readerFail), or a page document with n pages is produced and read. -/
inductive PageOcrOutcome where
  | ocrFail (msg : String)
  | readerFail (msg : String)
  | pages (n : Nat)
deriving DecidableEq

/-- Oracle for one document run: the behaviour of the external capabilities.
raster is the fitz rasterization (page count on success, exception text on
failure); ocr gives the per-page OCR outcome by page index; printFail models the
two print calls at ocr_pdf.py lines 68-69, which sit after validation and
before the try block, raising a non-domain exception when stdout is broken;
writeOut is the final open/write of the output file (inside the try), and
compressFail is the fitz compression (some text when it raises). -/
structure RunOracle where
  temp_dir : String
  raster : Except String Nat
  ocr : Nat → PageOcrOutcome
  printFail : Option String
  writeOut : Except String Unit
  compressFail : Option String

/-- PdfOcr._convert_pdf_to_images (ocr_pdf.py lines 157-205): on any exception
inside, the whole stage raises PdfOcrError("Failed to convert PDF to images:
..."); on success the page images page_0.jpg .. page_{n-1}.jpg are written into
the workspace and their paths returned in page order. -/
def convert_pdf_to_images (p : PdfOcr) (o : RunOracle) (pdf_path temp_dir : String) :
    Except Exc (List String) :=
  let mat := p.fitzMatZoom
  match o.raster with
  | .error m => .error (.pdfOcrError ("Failed to convert PDF to images: " ++ m))
  | .ok n =>
    .ok ((List.range n).map (fun i => temp_dir ++ "/page_" ++ toString i ++ ".jpg"))

/-- The per-page loop of process_file (ocr_pdf.py lines 82-92): for page i,
_ocr_page either raises TesseractError("OCR processing failed: ...") or writes
the page document; PdfReader reads it (a failure there is a non-domain
exception); a document with pages is appended page by page to the writer
(pdf_writer.append), a zero-page document is skipped with a warning.
assembled records the source page index of every page appended, in order;
warns records the page indexes skipped as empty. -/
def ocrLoop (o : RunOracle) : List Nat → List Nat → List Nat → Except Exc (List Nat × List Nat)
  | [], assembled, warns => .ok (assembled, warns)
  | i :: rest, assembled, warns =>
    match o.ocr i with
    | .ocrFail m => .error (.tesseractError ("OCR processing failed: " ++ m))
    | .readerFail m => .error (.otherExc m)
    | .pages n =>
      if 0 < n then ocrLoop o rest (assembled ++ List.replicate n i) warns
      else ocrLoop o rest assembled (warns ++ [i])

/-- Observable side effects of one process_file run: the durable filesystem, the
stage markers, the composite page list (by source page index), the warnings for
empty pages, and the compression outcome. -/
structure Trace where
  fs : FS
  tempAllocated : Bool
  rasterRun : Bool
  assembled : List Nat
  emptyPageWarnings : List Nat
  wroteOutput : Bool
  outputPages : Option (List Nat)
  compressAttempted : Bool
  compressWarning : Option String

def initTrace (fs : FS) : Trace :=
  { fs := fs, tempAllocated := false, rasterRun := false, assembled := [],
    emptyPageWarnings := [], wroteOutput := false, outputPages := none,
    compressAttempted := false, compressWarning := none }

/-- The body of the try block of process_file (ocr_pdf.py lines 71-103):
rasterize, OCR and assemble each page, write the composite, then compress when
optimization is on (_compress_pdf, lines 238-260, absorbs its own failures and
only prints a warning). -/
def runBody (p : PdfOcr) (o : RunOracle) (input_path output_path : String) (tr : Trace) :
    Except Exc String × Trace :=
  let tr1 := { tr with tempAllocated := true, rasterRun := true }
  match convert_pdf_to_images p o input_path o.temp_dir with
  | .error e => (.error e, tr1)
  | .ok images =>
    match ocrLoop o (List.range images.length) [] [] with
    | .error e => (.error e, tr1)
    | .ok (assembled, warns) =>
      let tr2 := { tr1 with assembled := assembled, emptyPageWarnings := warns }
      match o.writeOut with
      | .error m => (.error (.otherExc m), tr2)
      | .ok _ =>
        let tr3 := { tr2 with
          fs := tr2.fs.writeFile output_path
          wroteOutput := true
          outputPages := some assembled }
        if p.optimize_size then
          match o.compressFail with
          | some m => (.ok output_path,
              { tr3 with compressAttempted := true, compressWarning := some m })
          | none => (.ok output_path, { tr3 with compressAttempted := true })
        else (.ok output_path, tr3)

/-- The except clause of process_file (ocr_pdf.py lines 105-109): an exception
that is not a PdfOcrError is replaced by PdfOcrError("Error processing file
{input}: {cause}"); a PdfOcrError of any kind is re-raised unchanged. -/
def normalizeExc (input_path : String) (e : Exc) : Exc :=
  if e.isPdfOcrError then e
  else .pdfOcrError ("Error processing file " ++ input_path ++ ": " ++ e.msg)

/-- Default output naming (ocr_pdf.py line 63):
str(input_path.parent / (stem + "_searchable.pdf")). -/
def default_output_path (input_path : String) : String :=
  pathJoin (pathParent input_path) (pathStem input_path ++ "_searchable.pdf")

/-- PdfOcr.process_file (ocr_pdf.py lines 46-109): validate the input, fix the
output path, validate the output location, print the two banner lines, then run
the pipeline inside the temporary workspace, normalizing exceptions at the
except clause.  Returns the Python result (output path or exception) together
with the run trace. -/
def process_file (p : PdfOcr) (o : RunOracle) (fs : FS) (input_path : String)
    (output_path0 : Option String) : Except Exc String × Trace :=
  match verify_input_file fs input_path with
  | .error e => (.error e, initTrace fs)
  | .ok _ =>
    let output_path := output_path0.getD (default_output_path input_path)
    match verify_output_location fs output_path false with
    | (.error e, fs1) => (.error e, initTrace fs1)
    | (.ok _, fs1) =>
      match o.printFail with
      | some m => (.error (.otherExc m), initTrace fs1)
      | none =>
        match runBody p o input_path output_path (initTrace fs1) with
        | (.ok s, tr2) => (.ok s, tr2)
        | (.error e, tr2) => (.error (normalizeExc input_path e), tr2)

/-- Per-document output naming in a batch (ocr_pdf.py line 134):
os.path.join(output_dir, stem + "_searchable.pdf"). -/
def batch_output_path (output_dir input_path : String) : String :=
  osPathJoin output_dir (pathStem input_path ++ "_searchable.pdf")

/-- State threaded through the batch loop: the filesystem, the succeeded output
paths in order, and the recorded error messages in order. -/
structure BatchState where
  fs : FS
  output_paths : List String
  errors : List String

/-- The except clause of the batch loop (ocr_pdf.py line 141): except
PdfOcrError. -/
def batchCaught (e : Exc) : Bool := e.isPdfOcrError

/-- The for loop of process_batch (ocr_pdf.py lines 129-144): each input is
processed; a PdfOcrError is recorded as str(e) and the loop continues; any other
exception propagates and ends the batch. -/
def batchLoop (p : PdfOcr) (o : String → RunOracle) (output_dir0 : Option String) :
    List String → BatchState → Except Exc BatchState
  | [], st => .ok st
  | input_path :: rest, st =>
    let output_path0 := output_dir0.map (fun d => batch_output_path d input_path)
    match process_file p (o input_path) st.fs input_path output_path0 with
    | (.ok result_path, tr) =>
      batchLoop p o output_dir0 rest
        { fs := tr.fs, output_paths := st.output_paths ++ [result_path], errors := st.errors }
    | (.error e, tr) =>
      if batchCaught e then
        batchLoop p o output_dir0 rest
          { fs := tr.fs, output_paths := st.output_paths, errors := st.errors ++ [e.msg] }
      else .error e

/-- PdfOcr.process_batch (ocr_pdf.py lines 111-155): validate/create the output
directory once when given, then run the loop. -/
def process_batch (p : PdfOcr) (o : String → RunOracle) (fs : FS)
    (input_paths : List String) (output_dir0 : Option String) : Except Exc BatchState :=
  match output_dir0 with
  | some d =>
    match verify_output_location fs d true with
    | (.error e, _) => .error e
    | (.ok _, fs1) => batchLoop p o output_dir0 input_paths
        { fs := fs1, output_paths := [], errors := [] }
  | none => batchLoop p o output_dir0 input_paths
      { fs := fs, output_paths := [], errors := [] }

/-- The Python return value of process_batch (line 155): the list of succeeded
output paths. -/
def process_batch_result (p : PdfOcr) (o : String → RunOracle) (fs : FS)
    (input_paths : List String) (output_dir0 : Option String) : Except Exc (List String) :=
  (process_batch p o fs input_paths output_dir0).map (fun st => st.output_paths)

/-- Projection: the succeeded output paths of a batch outcome. -/
def batchOutcomePaths : Except Exc BatchState → Option (List String)
  | .ok st => some st.output_paths
  | .error _ => none

/-- Projection: the recorded error messages of a batch outcome. -/
def batchOutcomeErrors : Except Exc BatchState → Option (List String)
  | .ok st => some st.errors
  | .error _ => none

/-! ## Concrete fixtures used by witnesses and counterexamples. -/

/-- The default configuration of the tool (dpi 300, eng, optimization on). -/
def pOpt : PdfOcr := { dpi := 300, language := "eng", optimize_size := true }

/-- The configuration with optimization disabled. -/
def pNoOpt : PdfOcr := { dpi := 300, language := "eng", optimize_size := false }

/-- A filesystem holding one input file in.pdf in the current directory. -/
def fsA : FS :=
  { isFile := fun q => q == "in.pdf"
    isDir := fun q => q == "."
    mkdirFail := fun _ => none }

/-- An oracle for a run in which every stage succeeds and every page OCRs to a
one-page document; n is the page count of the input. -/
def oracleOk (n : Nat) : RunOracle :=
  { temp_dir := "/t", raster := .ok n, ocr := fun _ => .pages 1, printFail := none,
    writeOut := .ok (), compressFail := none }

/-- A run in which the rasterizer raises. -/
def oracleRasterBoom : RunOracle := { oracleOk 0 with raster := .error "boom" }

/-- A run in which the OCR engine raises on every page. -/
def oracleOcrBoom : RunOracle := { oracleOk 1 with ocr := fun _ => .ocrFail "boom" }

/-- A run in which the final output write raises a non-domain exception. -/
def oracleWriteBoom : RunOracle := { oracleOk 1 with writeOut := .error "boom" }

/-- A run in which the banner print raises a non-domain exception. -/
def oraclePrintBoom : RunOracle := { oracleOk 1 with printFail := some "boom" }

/-- A run in which compression raises. -/
def oracleCompressBoom : RunOracle := { oracleOk 2 with compressFail := some "boom" }

/-- A run in which every page OCRs to an empty (zero-page) document. -/
def oracleAllEmpty (n : Nat) : RunOracle := { oracleOk n with ocr := fun _ => .pages 0 }

/-- A run in which page 1 OCRs empty and the other pages OCR to one page. -/
def oracleMidEmpty (n : Nat) : RunOracle :=
  { oracleOk n with ocr := fun i => if i == 1 then .pages 0 else .pages 1 }

/-- A filesystem holding A.pdf and C.pdf but no B.pdf. -/
def fsAC : FS :=
  { isFile := fun q => q == "A.pdf" || q == "C.pdf"
    isDir := fun q => q == "."
    mkdirFail := fun _ => none }

/-- A filesystem holding A.pdf and B.pdf. -/
def fsAB : FS :=
  { isFile := fun q => q == "A.pdf" || q == "B.pdf"
    isDir := fun q => q == "."
    mkdirFail := fun _ => none }

/-- Every document behaves the same: all stages succeed, one page. -/
def oracleFam : String → RunOracle := fun _ => oracleOk 1

/-- Every document hits the broken-stdout print. -/
def oracleFamPrint : String → RunOracle := fun _ => oraclePrintBoom

/-- B.pdf fails in the OCR engine, every other document succeeds. -/
def oracleMixFam : String → RunOracle :=
  fun inp => if inp == "B.pdf" then oracleOcrBoom else oracleOk 1

/-- Two input files with the same stem x in different directories. -/
def fsStems : FS :=
  { isFile := fun q => q == "a/x.pdf" || q == "b/x.pdf"
    isDir := fun q => q == "." || q == "a" || q == "b"
    mkdirFail := fun _ => none }

/-- A filesystem where the intended output path out.pdf is a directory. -/
def fsDirAtOut : FS :=
  { isFile := fun q => q == "in.pdf"
    isDir := fun q => q == "." || q == "out.pdf"
    mkdirFail := fun _ => none }

/-- A filesystem where the intended output directory outdir is a file. -/
def fsFileAtDir : FS :=
  { isFile := fun q => q == "outdir"
    isDir := fun q => q == "."
    mkdirFail := fun _ => none }

/-- The empty starting batch state over fsAC. -/
def stAC : BatchState := { fs := fsAC, output_paths := [], errors := [] }

/-- The empty starting batch state over fsAB. -/
def stAB : BatchState := { fs := fsAB, output_paths := [], errors := [] }

/-! ## Helper lemmas. -/

/-- When every page OCRs to zero or one page, the loop succeeds; the composite
is the accumulated pages followed by the one-page indexes in page order, and the
warnings are the zero-page indexes in page order. -/
theorem ocrLoop_binary (o : RunOracle) (idxs : List Nat) (acc1 acc2 : List Nat)
    (h : ∀ i ∈ idxs, o.ocr i = .pages 0 ∨ o.ocr i = .pages 1) :
    ocrLoop o idxs acc1 acc2 =
      .ok (acc1 ++ idxs.filter (fun i => decide (o.ocr i = PageOcrOutcome.pages 1)),
           acc2 ++ idxs.filter (fun i => decide (o.ocr i = PageOcrOutcome.pages 0))) := by
  induction idxs generalizing acc1 acc2 with
  | nil => simp [ocrLoop]
  | cons x rest ih =>
    have hrest : ∀ i ∈ rest, o.ocr i = .pages 0 ∨ o.ocr i = .pages 1 := by
      intro i hi
      exact h i (by simp [hi])
    rcases h x (by simp) with h0 | h1
    · simp [ocrLoop, h0, ih _ _ hrest, List.filter_cons, List.append_assoc]
    · simp [ocrLoop, h1, ih _ _ hrest, List.filter_cons, List.append_assoc,
        List.replicate]

/-- When every page OCRs to some page count (no exception), the loop succeeds. -/
theorem ocrLoop_total (o : RunOracle) (idxs : List Nat)
    (h : ∀ i ∈ idxs, ∃ n, o.ocr i = .pages n) :
    ∀ acc1 acc2, ∃ a w, ocrLoop o idxs acc1 acc2 = .ok (a, w) := by
  induction idxs with
  | nil => exact fun a w => ⟨a, w, rfl⟩
  | cons x rest ih =>
    intro acc1 acc2
    obtain ⟨n, hn⟩ := h x (by simp)
    have ihr := ih (fun i hi => h i (by simp [hi]))
    by_cases h0 : 0 < n
    · obtain ⟨a, w, hw⟩ := ihr (acc1 ++ List.replicate n x) acc2
      exact ⟨a, w, by simp [ocrLoop, hn, h0, hw]⟩
    · obtain ⟨a, w, hw⟩ := ihr acc1 (acc2 ++ [x])
      exact ⟨a, w, by simp [ocrLoop, hn, h0, hw]⟩

/-- Two pointwise exclusive predicates split the length of a list. -/
theorem length_filter_exclusive (l : List Nat) (P Q : Nat → Bool)
    (h : ∀ i ∈ l, (P i = true ∧ Q i = false) ∨ (P i = false ∧ Q i = true)) :
    (l.filter P).length + (l.filter Q).length = l.length := by
  induction l with
  | nil => simp
  | cons x xs ih =>
    have ihx := ih (fun i hi => h i (by simp [hi]))
    rcases h x (by simp) with ⟨h1, h2⟩ | ⟨h1, h2⟩ <;>
      simp [List.filter_cons, h1, h2] <;> omega

/-- makedirs marks the target itself a directory. -/
theorem mkdirs_isDir_self (fs : FS) (p : String) : (fs.mkdirs p).isDir p = true := by
  simp [FS.mkdirs, parentChain]

/-- makedirs only adds directories. -/
theorem mkdirs_isDir_mono (fs : FS) (p q : String) (h : fs.isDir q = true) :
    (fs.mkdirs p).isDir q = true := by
  simp [FS.mkdirs, h]

/-- Evaluation of a fully successful process_file run: all observable fields of
the outcome, for any compression behaviour. -/
theorem process_file_success_spec (p : PdfOcr) (o : RunOracle) (fs : FS)
    (input out : String) (N : Nat) (a w : List Nat)
    (hin : verify_input_file fs input = .ok ())
    (hout : (verify_output_location fs out false).1 = .ok ())
    (hprint : o.printFail = none)
    (hraster : o.raster = .ok N)
    (hloop : ocrLoop o (List.range N) [] [] = .ok (a, w))
    (hwrite : o.writeOut = .ok ()) :
    (process_file p o fs input (some out)).1 = .ok out ∧
    (process_file p o fs input (some out)).2.assembled = a ∧
    (process_file p o fs input (some out)).2.emptyPageWarnings = w ∧
    (process_file p o fs input (some out)).2.outputPages = some a ∧
    (process_file p o fs input (some out)).2.wroteOutput = true ∧
    (process_file p o fs input (some out)).2.fs.isFile out = true ∧
    (process_file p o fs input (some out)).2.compressAttempted = p.optimize_size ∧
    (process_file p o fs input (some out)).2.compressWarning =
      (if p.optimize_size then o.compressFail else none) ∧
    (process_file p o fs input (some out)).2.tempAllocated = true ∧
    (process_file p o fs input (some out)).2.rasterRun = true := by
  rcases hvo : verify_output_location fs out false with ⟨vres, fs1⟩
  rw [hvo] at hout
  simp only at hout
  subst hout
  have hlen : ((List.range N).map
      (fun i => o.temp_dir ++ "/page_" ++ toString i ++ ".jpg")).length = N := by
    simp
  simp only [process_file, hin, hvo, Option.getD, runBody, convert_pdf_to_images,
    hraster, hprint, hlen, hloop, hwrite]
  cases hop : p.optimize_size <;> cases hcf : o.compressFail <;>
    simp [FS.writeFile, initTrace, hop, hcf]

/-- An invalid input (missing, not a regular file, or without a case-insensitive
.pdf suffix) always fails verify_input_file with an InputFileError. -/
theorem verify_input_file_invalid (fs : FS) (ip : String)
    (h : fs.existsPath ip = false ∨ fs.isFile ip = false ∨
         strToLower (pathSuffix ip) ≠ ".pdf") :
    ∃ m, verify_input_file fs ip = .error (.inputFileError m) := by
  by_cases h1 : fs.existsPath ip = true
  · by_cases h2 : fs.isFile ip = true
    · have h3 : strToLower (pathSuffix ip) ≠ ".pdf" := by
        rcases h with h | h | h
        · rw [h1] at h; cases h
        · rw [h2] at h; cases h
        · exact h
      exact ⟨"Input file is not a PDF: " ++ ip, by simp [verify_input_file, h1, h2, h3]⟩
    · rw [Bool.not_eq_true] at h2
      exact ⟨"Input path is not a file: " ++ ip, by simp [verify_input_file, h1, h2]⟩
  · rw [Bool.not_eq_true] at h1
    exact ⟨"Input file not found: " ++ ip, by simp [verify_input_file, h1]⟩

/-- The OCR loop only looks at the ocr field of the oracle. -/
theorem ocrLoop_ocr_congr (o1 o2 : RunOracle) (h : o1.ocr = o2.ocr) :
    ∀ idxs acc1 acc2, ocrLoop o1 idxs acc1 acc2 = ocrLoop o2 idxs acc1 acc2 := by
  intro idxs
  induction idxs with
  | nil => intro a w; rfl
  | cons x rest ih =>
    intro a w
    cases hx : o2.ocr x with
    | ocrFail m => simp [ocrLoop, h, hx]
    | readerFail m => simp [ocrLoop, h, hx]
    | pages n =>
      by_cases h0 : 0 < n <;> simp [ocrLoop, h, hx, h0, ih]

/-! ## Claim theorems. -/

/-- C1: for a valid N-page input on which every stage succeeds and every page
OCRs to a zero- or one-page document, process_file succeeds; the assembled
output holds exactly the pages whose OCR was non-empty, in rasterization page
order (the composite page list is the order-preserving filter of the page index
range), so it has N pages minus the number of zero-page results, and each
zero-page document is skipped with a non-fatal warning. -/
theorem C1_output_pages_match_input_order (p : PdfOcr) (o : RunOracle) (fs : FS)
    (input out : String) (N : Nat)
    (hin : verify_input_file fs input = .ok ())
    (hout : (verify_output_location fs out false).1 = .ok ())
    (hprint : o.printFail = none)
    (hraster : o.raster = .ok N)
    (hwrite : o.writeOut = .ok ())
    (hpages : ∀ i, i < N → o.ocr i = .pages 0 ∨ o.ocr i = .pages 1) :
    (process_file p o fs input (some out)).1 = .ok out ∧
    (process_file p o fs input (some out)).2.assembled =
      (List.range N).filter (fun i => decide (o.ocr i = PageOcrOutcome.pages 1)) ∧
    (process_file p o fs input (some out)).2.assembled.length =
      N - ((List.range N).filter (fun i => decide (o.ocr i = PageOcrOutcome.pages 0))).length ∧
    (process_file p o fs input (some out)).2.emptyPageWarnings =
      (List.range N).filter (fun i => decide (o.ocr i = PageOcrOutcome.pages 0)) ∧
    (process_file p o fs input (some out)).2.outputPages =
      some ((List.range N).filter (fun i => decide (o.ocr i = PageOcrOutcome.pages 1))) := by
  have hb : ∀ i ∈ List.range N, o.ocr i = .pages 0 ∨ o.ocr i = .pages 1 := by
    intro i hi
    exact hpages i (List.mem_range.mp hi)
  have hloop := ocrLoop_binary o (List.range N) [] [] hb
  simp only [List.nil_append] at hloop
  have spec := process_file_success_spec p o fs input out N _ _
    hin hout hprint hraster hloop hwrite
  have hsplit :
      ((List.range N).filter (fun i => decide (o.ocr i = PageOcrOutcome.pages 1))).length +
      ((List.range N).filter (fun i => decide (o.ocr i = PageOcrOutcome.pages 0))).length = N := by
    have hx : ∀ i ∈ List.range N,
        ((fun i => decide (o.ocr i = PageOcrOutcome.pages 1)) i = true ∧
         (fun i => decide (o.ocr i = PageOcrOutcome.pages 0)) i = false) ∨
        ((fun i => decide (o.ocr i = PageOcrOutcome.pages 1)) i = false ∧
         (fun i => decide (o.ocr i = PageOcrOutcome.pages 0)) i = true) := by
      intro i hi
      rcases hb i hi with h0 | h1
      · right; simp [h0]
      · left; simp [h1]
    have := length_filter_exclusive (List.range N) _ _ hx
    simpa using this
  refine ⟨spec.1, spec.2.1, ?_, spec.2.2.1, spec.2.2.2.1⟩
  rw [spec.2.1]
  omega

/-- C1 witness: a three-page document whose middle page OCRs empty yields the
two remaining pages in order, one warning, and a successful run. -/
theorem C1_output_pages_match_input_order_witness :
    (process_file pOpt (oracleMidEmpty 3) fsA "in.pdf" (some "out.pdf")).1 = .ok "out.pdf" ∧
    (process_file pOpt (oracleMidEmpty 3) fsA "in.pdf" (some "out.pdf")).2.assembled =
      (List.range 3).filter (fun i => decide ((oracleMidEmpty 3).ocr i = PageOcrOutcome.pages 1)) ∧
    (process_file pOpt (oracleMidEmpty 3) fsA "in.pdf" (some "out.pdf")).2.assembled.length =
      3 - ((List.range 3).filter
        (fun i => decide ((oracleMidEmpty 3).ocr i = PageOcrOutcome.pages 0))).length ∧
    (process_file pOpt (oracleMidEmpty 3) fsA "in.pdf" (some "out.pdf")).2.emptyPageWarnings =
      (List.range 3).filter (fun i => decide ((oracleMidEmpty 3).ocr i = PageOcrOutcome.pages 0)) ∧
    (process_file pOpt (oracleMidEmpty 3) fsA "in.pdf" (some "out.pdf")).2.outputPages =
      some ((List.range 3).filter
        (fun i => decide ((oracleMidEmpty 3).ocr i = PageOcrOutcome.pages 1))) :=
  C1_output_pages_match_input_order pOpt (oracleMidEmpty 3) fsA "in.pdf" "out.pdf" 3
    rfl rfl rfl rfl rfl
    (by intro i hi; interval_cases i <;> simp [oracleMidEmpty, oracleOk])

/-- C2: the effective OCR resolution is min(dpi, 200) when optimization is on
and dpi when it is off (so 300 becomes 200 with optimization and stays 300
without), and the rasterization matrix applies ocr_dpi / 72 uniformly to both
axes. -/
theorem C2_effective_resolution (p : PdfOcr) :
    (p.optimize_size = true → p.ocr_dpi = min p.dpi 200) ∧
    (p.optimize_size = false → p.ocr_dpi = p.dpi) ∧
    (p.dpi = 300 → p.optimize_size = true → p.ocr_dpi = 200) ∧
    (p.dpi = 300 → p.optimize_size = false → p.ocr_dpi = 300) ∧
    p.fitzMatZoom = ((p.ocr_dpi : Rat) / 72, (p.ocr_dpi : Rat) / 72) := by
  refine ⟨?_, ?_, ?_, ?_, rfl⟩
  · intro h
    simp [PdfOcr.ocr_dpi, h]
  · intro h
    simp [PdfOcr.ocr_dpi, h]
  · intro hd h
    simp [PdfOcr.ocr_dpi, h, hd]
  · intro hd h
    simp [PdfOcr.ocr_dpi, h, hd]

/-- C2 witness: at dpi 300 the effective resolution is 200 with optimization and
300 without. -/
theorem C2_effective_resolution_witness :
    pOpt.ocr_dpi = 200 ∧ pNoOpt.ocr_dpi = 300 :=
  ⟨(C2_effective_resolution pOpt).2.2.1 rfl rfl,
   (C2_effective_resolution pNoOpt).2.2.2.1 rfl rfl⟩

/-- C6: an input path that does not exist, is not a regular file, or lacks a
case-insensitive .pdf extension makes process_file raise an InputFileError with
the whole run trace still initial: no temporary workspace, no rasterization, no
writes - the filesystem is returned unchanged. -/
theorem C6_input_validation (p : PdfOcr) (o : RunOracle) (fs : FS) (input_path : String)
    (output_path0 : Option String)
    (h : fs.existsPath input_path = false ∨ fs.isFile input_path = false ∨
         strToLower (pathSuffix input_path) ≠ ".pdf") :
    (∃ m, (process_file p o fs input_path output_path0).1 = .error (.inputFileError m)) ∧
    (process_file p o fs input_path output_path0).2 = initTrace fs := by
  obtain ⟨m, hm⟩ := verify_input_file_invalid fs input_path h
  exact ⟨⟨m, by simp [process_file, hm]⟩, by simp [process_file, hm]⟩

/-- C6 witness: a missing input path fails with an input error and an untouched
filesystem. -/
theorem C6_input_validation_witness :
    (∃ m, (process_file pOpt (oracleOk 1) fsA "missing.pdf" none).1 =
      .error (.inputFileError m)) ∧
    (process_file pOpt (oracleOk 1) fsA "missing.pdf" none).2 = initTrace fsA :=
  C6_input_validation pOpt (oracleOk 1) fsA "missing.pdf" none (Or.inl rfl)

/-- C10: when every page of the document OCRs to a zero-page result,
process_file still succeeds: it writes an output document with zero pages,
returns the output path, and warns once per page. -/
theorem C10_all_pages_empty (p : PdfOcr) (o : RunOracle) (fs : FS)
    (input out : String) (N : Nat)
    (hin : verify_input_file fs input = .ok ())
    (hout : (verify_output_location fs out false).1 = .ok ())
    (hprint : o.printFail = none)
    (hraster : o.raster = .ok N)
    (hwrite : o.writeOut = .ok ())
    (hpages : ∀ i, i < N → o.ocr i = .pages 0) :
    (process_file p o fs input (some out)).1 = .ok out ∧
    (process_file p o fs input (some out)).2.outputPages = some [] ∧
    (process_file p o fs input (some out)).2.wroteOutput = true ∧
    (process_file p o fs input (some out)).2.fs.isFile out = true ∧
    (process_file p o fs input (some out)).2.emptyPageWarnings = List.range N := by
  have hb : ∀ i ∈ List.range N, o.ocr i = .pages 0 ∨ o.ocr i = .pages 1 :=
    fun i hi => Or.inl (hpages i (List.mem_range.mp hi))
  have hloop := ocrLoop_binary o (List.range N) [] [] hb
  have h1 : (List.range N).filter (fun i => decide (o.ocr i = PageOcrOutcome.pages 1)) = [] := by
    refine List.filter_eq_nil_iff.mpr ?_
    intro i hi
    simp [hpages i (List.mem_range.mp hi)]
  have h0 : (List.range N).filter (fun i => decide (o.ocr i = PageOcrOutcome.pages 0)) =
      List.range N := by
    refine List.filter_eq_self.mpr ?_
    intro i hi
    simp [hpages i (List.mem_range.mp hi)]
  rw [h1, h0] at hloop
  simp only [List.nil_append] at hloop
  have spec := process_file_success_spec p o fs input out N [] (List.range N)
    hin hout hprint hraster hloop hwrite
  exact ⟨spec.1, spec.2.2.2.1, spec.2.2.2.2.1, spec.2.2.2.2.2.1, spec.2.2.1⟩

/-- C10 witness: a two-page document whose pages both OCR empty still succeeds
with an empty output document. -/
theorem C10_all_pages_empty_witness :
    (process_file pOpt (oracleAllEmpty 2) fsA "in.pdf" (some "out.pdf")).1 = .ok "out.pdf" ∧
    (process_file pOpt (oracleAllEmpty 2) fsA "in.pdf" (some "out.pdf")).2.outputPages =
      some [] ∧
    (process_file pOpt (oracleAllEmpty 2) fsA "in.pdf" (some "out.pdf")).2.wroteOutput = true ∧
    (process_file pOpt (oracleAllEmpty 2) fsA "in.pdf" (some "out.pdf")).2.fs.isFile "out.pdf" =
      true ∧
    (process_file pOpt (oracleAllEmpty 2) fsA "in.pdf" (some "out.pdf")).2.emptyPageWarnings =
      List.range 2 :=
  C10_all_pages_empty pOpt (oracleAllEmpty 2) fsA "in.pdf" "out.pdf" 2
    rfl rfl rfl rfl rfl (fun i _ => rfl)

/-- C3 counterexample: a rasterization fault on in.pdf surfaces as the plain
PdfOcrError raised inside the rasterizer; its message neither names the input
file nor carries the generic processing-failure wrapper, yet it passed through
the except clause unchanged because it already is a PdfOcrError - refuting both
that rasterization faults are reported naming the input file and that only the
input, output and recognition kinds pass through unchanged. -/
theorem C3_counterexample_raster_fault :
    (process_file pOpt oracleRasterBoom fsA "in.pdf" (some "out.pdf")).1 =
      .error (.pdfOcrError "Failed to convert PDF to images: boom") ∧
    strContains "Failed to convert PDF to images: boom" "in.pdf" = false ∧
    strContains "Failed to convert PDF to images: boom" "Error processing file" = false :=
  ⟨rfl, by decide, by decide⟩

/-- C3 (amended): an exception raised inside the try block of a run passes
through unchanged whenever it already is a PdfOcrError of any kind - the three
specific kinds and also the generic base kind, which the rasterizer itself
raises with the message Failed to convert PDF to images (a message that does
not name the input file); any other exception is wrapped into a PdfOcrError
naming the input file and the original cause. -/
theorem C3_exception_normalization (p : PdfOcr) (o : RunOracle) (fs fs1 : FS)
    (input out : String) (e : Exc)
    (hin : verify_input_file fs input = .ok ())
    (hout : verify_output_location fs out false = (.ok (), fs1))
    (hprint : o.printFail = none)
    (hrun : (runBody p o input out (initTrace fs1)).1 = .error e) :
    (e.isPdfOcrError = true → (process_file p o fs input (some out)).1 = .error e) ∧
    (e.isPdfOcrError = false → (process_file p o fs input (some out)).1 =
      .error (.pdfOcrError ("Error processing file " ++ input ++ ": " ++ e.msg))) ∧
    (∀ m, o.raster = .error m →
      (process_file p o fs input (some out)).1 =
        .error (.pdfOcrError ("Failed to convert PDF to images: " ++ m))) := by
  rcases hr : runBody p o input out (initTrace fs1) with ⟨res, tr⟩
  rw [hr] at hrun
  simp only at hrun
  subst hrun
  have hpf : (process_file p o fs input (some out)).1 = .error (normalizeExc input e) := by
    simp [process_file, hin, hout, hprint, hr]
  refine ⟨?_, ?_, ?_⟩
  · intro hd
    rw [hpf]
    simp [normalizeExc, hd]
  · intro hd
    rw [hpf]
    simp [normalizeExc, hd]
  · intro m hm
    have h2 : (runBody p o input out (initTrace fs1)).1 =
        .error (.pdfOcrError ("Failed to convert PDF to images: " ++ m)) := by
      simp [runBody, convert_pdf_to_images, hm]
    rw [hr] at h2
    simp only at h2
    cases h2
    rw [hpf]
    simp [normalizeExc, Exc.isPdfOcrError]

/-- C3 witness: a recognition fault passes through as TesseractError, a broken
output write (a non-domain OSError) is wrapped naming the input file, and a
rasterization fault surfaces as the plain rasterizer message. -/
theorem C3_exception_normalization_witness :
    (process_file pOpt oracleOcrBoom fsA "in.pdf" (some "out.pdf")).1 =
      .error (.tesseractError "OCR processing failed: boom") ∧
    (process_file pOpt oracleWriteBoom fsA "in.pdf" (some "out.pdf")).1 =
      .error (.pdfOcrError "Error processing file in.pdf: boom") ∧
    (process_file pOpt oracleRasterBoom fsA "in.pdf" (some "out.pdf")).1 =
      .error (.pdfOcrError "Failed to convert PDF to images: boom") :=
  ⟨(C3_exception_normalization pOpt oracleOcrBoom fsA fsA "in.pdf" "out.pdf"
      (.tesseractError "OCR processing failed: boom") rfl rfl rfl rfl).1 rfl,
   (C3_exception_normalization pOpt oracleWriteBoom fsA fsA "in.pdf" "out.pdf"
      (.otherExc "boom") rfl rfl rfl rfl).2.1 rfl,
   (C3_exception_normalization pOpt oracleRasterBoom fsA fsA "in.pdf" "out.pdf"
      (.pdfOcrError "Failed to convert PDF to images: boom") rfl rfl rfl rfl).2.2 "boom" rfl⟩

/-- C8: on a run where all stages up to the output write succeed, the
compression step runs exactly when optimize_size is set, and it is advisory: if
it fails, the failure is absorbed as a recorded warning, process_file still
returns the output path, the written output file is still present, and the
composite page list of the output is identical to the one a run with working
compression produces. -/
theorem C8_compression_advisory (p : PdfOcr) (o : RunOracle) (fs : FS)
    (input out : String) (N : Nat)
    (hin : verify_input_file fs input = .ok ())
    (hout : (verify_output_location fs out false).1 = .ok ())
    (hprint : o.printFail = none)
    (hraster : o.raster = .ok N)
    (hwrite : o.writeOut = .ok ())
    (hocr : ∀ i, i < N → ∃ n, o.ocr i = .pages n) :
    (process_file p o fs input (some out)).2.compressAttempted = p.optimize_size ∧
    (process_file p o fs input (some out)).1 = .ok out ∧
    (∀ m, o.compressFail = some m → p.optimize_size = true →
      (process_file p o fs input (some out)).2.compressWarning = some m) ∧
    (process_file p o fs input (some out)).2.fs.isFile out = true ∧
    (process_file p o fs input (some out)).2.wroteOutput = true ∧
    (process_file p o fs input (some out)).2.outputPages =
      (process_file p { o with compressFail := none } fs input (some out)).2.outputPages := by
  obtain ⟨a, w, hloop⟩ := ocrLoop_total o (List.range N)
    (fun i hi => hocr i (List.mem_range.mp hi)) [] []
  have hloop0 : ocrLoop { o with compressFail := none } (List.range N) [] [] = .ok (a, w) :=
    (ocrLoop_ocr_congr { o with compressFail := none } o rfl (List.range N) [] []).trans hloop
  have spec := process_file_success_spec p o fs input out N a w
    hin hout hprint hraster hloop hwrite
  have spec0 := process_file_success_spec p { o with compressFail := none } fs input out N a w
    hin hout hprint hraster hloop0 hwrite
  refine ⟨spec.2.2.2.2.2.2.1, spec.1, ?_, spec.2.2.2.2.2.1, spec.2.2.2.2.1, ?_⟩
  · intro m hm hop
    rw [spec.2.2.2.2.2.2.2.1, hop, hm]
    simp
  · rw [spec.2.2.2.1, spec0.2.2.2.1]

/-- C8 witness: with optimization on and a failing compressor, the run still
succeeds, records the warning, keeps the output file and produces the same
composite pages as a run with a working compressor. -/
theorem C8_compression_advisory_witness :
    (process_file pOpt oracleCompressBoom fsA "in.pdf" (some "out.pdf")).2.compressAttempted =
      true ∧
    (process_file pOpt oracleCompressBoom fsA "in.pdf" (some "out.pdf")).1 = .ok "out.pdf" ∧
    (process_file pOpt oracleCompressBoom fsA "in.pdf" (some "out.pdf")).2.compressWarning =
      some "boom" ∧
    (process_file pOpt oracleCompressBoom fsA "in.pdf" (some "out.pdf")).2.fs.isFile "out.pdf" =
      true ∧
    (process_file pOpt oracleCompressBoom fsA "in.pdf" (some "out.pdf")).2.outputPages =
      (process_file pOpt { oracleCompressBoom with compressFail := none } fsA "in.pdf"
        (some "out.pdf")).2.outputPages := by
  have h := C8_compression_advisory pOpt oracleCompressBoom fsA "in.pdf" "out.pdf" 2
    rfl rfl rfl rfl rfl (fun i _ => ⟨1, rfl⟩)
  exact ⟨h.1, h.2.1, h.2.2.1 "boom" rfl rfl, h.2.2.2.1, h.2.2.2.2.2⟩

/-- Missing parent directories are created by output validation (for both the
file form and the directory form), whatever the remaining checks decide. -/
theorem verify_output_creates_parent (fs : FS) (outp : String) (isdir : Bool)
    (h1 : fs.existsPath (pathParent outp) = false)
    (h2 : fs.mkdirFail (pathParent outp) = none) :
    ((verify_output_location fs outp isdir).2).isDir (pathParent outp) = true := by
  have hself := mkdirs_isDir_self fs (pathParent outp)
  simp only [verify_output_location, h1, Bool.false_eq_true, if_false, osMakedirs, h2]
  cases isdir with
  | false =>
    by_cases hc : ((fs.mkdirs (pathParent outp)).existsPath outp &&
        !((fs.mkdirs (pathParent outp)).isFile outp)) = true
    · simp [hc, hself]
    · simp only [Bool.not_eq_true] at hc
      simp [hc, hself]
  | true =>
    by_cases hc : ((fs.mkdirs (pathParent outp)).existsPath outp &&
        !((fs.mkdirs (pathParent outp)).isDir outp)) = true
    · simp [hc, hself]
    · simp only [Bool.not_eq_true] at hc
      cases hmk : (fs.mkdirs (pathParent outp)).mkdirFail outp with
      | some m => simp [hc, hmk, osMakedirs, hself]
      | none => simp [hc, hmk, osMakedirs, hself, mkdirs_isDir_mono]

/-- An existing output path of the wrong kind when a file is expected raises
OutputError. -/
theorem verify_output_wrong_kind_file (fs : FS) (outp : String)
    (hp : fs.existsPath (pathParent outp) = true)
    (he : fs.existsPath outp = true) (hf : fs.isFile outp = false) :
    (verify_output_location fs outp false).1 =
      .error (.outputError ("Output path exists but is not a file: " ++ outp)) := by
  simp [verify_output_location, hp, he, hf]

/-- An existing output path of the wrong kind when a directory is expected
raises OutputError. -/
theorem verify_output_wrong_kind_dir (fs : FS) (outp : String)
    (hp : fs.existsPath (pathParent outp) = true)
    (he : fs.existsPath outp = true) (hd : fs.isDir outp = false) :
    (verify_output_location fs outp true).1 =
      .error (.outputError ("Output path exists but is not a directory: " ++ outp)) := by
  simp [verify_output_location, hp, he, hd]

/-- In process_file, a wrong-kind output path stops the run with an OutputError
before the workspace is allocated and before rasterization starts. -/
theorem process_file_output_error (p : PdfOcr) (o : RunOracle) (fs : FS)
    (input outp : String)
    (hin : verify_input_file fs input = .ok ())
    (hp : fs.existsPath (pathParent outp) = true)
    (he : fs.existsPath outp = true) (hf : fs.isFile outp = false) :
    (∃ m, (process_file p o fs input (some outp)).1 = .error (.outputError m)) ∧
    (process_file p o fs input (some outp)).2.tempAllocated = false ∧
    (process_file p o fs input (some outp)).2.rasterRun = false := by
  rcases hvo : verify_output_location fs outp false with ⟨vres, fs1⟩
  have h1 := verify_output_wrong_kind_file fs outp hp he hf
  rw [hvo] at h1
  simp only at h1
  subst h1
  refine ⟨⟨"Output path exists but is not a file: " ++ outp, ?_⟩, ?_, ?_⟩ <;>
    simp [process_file, hin, hvo, initTrace]

/-- C7: output validation creates a missing parent directory; an output path
that exists with the wrong kind (a directory where a file is expected, or a
file where a directory is expected) raises an OutputError; and in process_file
this error occurs before the workspace is allocated and before rasterization
begins. -/
theorem C7_output_validation :
    (∀ (fs : FS) (outp : String) (isdir : Bool),
       fs.existsPath (pathParent outp) = false →
       fs.mkdirFail (pathParent outp) = none →
       ((verify_output_location fs outp isdir).2).isDir (pathParent outp) = true) ∧
    (∀ (fs : FS) (outp : String),
       fs.existsPath (pathParent outp) = true →
       fs.existsPath outp = true → fs.isFile outp = false →
       (verify_output_location fs outp false).1 =
         .error (.outputError ("Output path exists but is not a file: " ++ outp))) ∧
    (∀ (fs : FS) (outp : String),
       fs.existsPath (pathParent outp) = true →
       fs.existsPath outp = true → fs.isDir outp = false →
       (verify_output_location fs outp true).1 =
         .error (.outputError ("Output path exists but is not a directory: " ++ outp))) ∧
    (∀ (p : PdfOcr) (o : RunOracle) (fs : FS) (input outp : String),
       verify_input_file fs input = .ok () →
       fs.existsPath (pathParent outp) = true →
       fs.existsPath outp = true → fs.isFile outp = false →
       (∃ m, (process_file p o fs input (some outp)).1 = .error (.outputError m)) ∧
       (process_file p o fs input (some outp)).2.tempAllocated = false ∧
       (process_file p o fs input (some outp)).2.rasterRun = false) :=
  ⟨verify_output_creates_parent, verify_output_wrong_kind_file,
   verify_output_wrong_kind_dir, process_file_output_error⟩

/-- C7 witness: a missing parent d of d/o.pdf is created; an out.pdf that is a
directory fails the file form; an outdir that is a file fails the directory
form; and process_file stops on the directory-shaped out.pdf with no workspace
and no rasterization. -/
theorem C7_output_validation_witness :
    ((verify_output_location fsA "d/o.pdf" false).2).isDir "d" = true ∧
    (verify_output_location fsDirAtOut "out.pdf" false).1 =
      .error (.outputError "Output path exists but is not a file: out.pdf") ∧
    (verify_output_location fsFileAtDir "outdir" true).1 =
      .error (.outputError "Output path exists but is not a directory: outdir") ∧
    (∃ m, (process_file pOpt (oracleOk 1) fsDirAtOut "in.pdf" (some "out.pdf")).1 =
      .error (.outputError m)) ∧
    (process_file pOpt (oracleOk 1) fsDirAtOut "in.pdf" (some "out.pdf")).2.tempAllocated =
      false ∧
    (process_file pOpt (oracleOk 1) fsDirAtOut "in.pdf" (some "out.pdf")).2.rasterRun = false := by
  have h4 := C7_output_validation.2.2.2 pOpt (oracleOk 1) fsDirAtOut "in.pdf" "out.pdf"
    rfl rfl rfl rfl
  exact ⟨C7_output_validation.1 fsA "d/o.pdf" false rfl rfl,
    C7_output_validation.2.1 fsDirAtOut "out.pdf" rfl rfl rfl,
    C7_output_validation.2.2.1 fsFileAtDir "outdir" rfl rfl rfl,
    h4.1, h4.2.1, h4.2.2⟩

/-- C4: in the batch [A.pdf, B.pdf, C.pdf] with B.pdf missing, the runs for A
and C succeed in input order and exactly one failure entry, referencing B.pdf,
is recorded; in general the loop catches a failing document exactly when its
error is a PdfOcrError (the isPdfOcrError test of the except clause), recording
it and continuing with the next document, while any other exception escapes the
loop and ends the batch. -/
theorem C4_batch_isolation :
    batchOutcomePaths (process_batch pOpt oracleFam fsAC
        ["A.pdf", "B.pdf", "C.pdf"] (some "out")) =
      some ["out/A_searchable.pdf", "out/C_searchable.pdf"] ∧
    batchOutcomeErrors (process_batch pOpt oracleFam fsAC
        ["A.pdf", "B.pdf", "C.pdf"] (some "out")) =
      some ["Input file not found: B.pdf"] ∧
    strContains "Input file not found: B.pdf" "B.pdf" = true ∧
    (∀ (p : PdfOcr) (o : String → RunOracle) (d : Option String)
       (input : String) (rest : List String) (st : BatchState) (e : Exc),
       (process_file p (o input) st.fs input
           (d.map (fun dd => batch_output_path dd input))).1 = .error e →
       (batchCaught e = true →
          batchLoop p o d (input :: rest) st = batchLoop p o d rest
            { fs := (process_file p (o input) st.fs input
                (d.map (fun dd => batch_output_path dd input))).2.fs
              output_paths := st.output_paths
              errors := st.errors ++ [e.msg] }) ∧
       (batchCaught e = false →
          batchLoop p o d (input :: rest) st = .error e)) ∧
    (∀ m, batchCaught (Exc.otherExc m) = false) ∧
    (∀ m, batchCaught (Exc.pdfOcrError m) = true ∧ batchCaught (Exc.inputFileError m) = true ∧
          batchCaught (Exc.tesseractError m) = true ∧ batchCaught (Exc.outputError m) = true) := by
  refine ⟨rfl, rfl, by decide, ?_, fun m => rfl, fun m => ⟨rfl, rfl, rfl, rfl⟩⟩
  intro p o d input rest st e h
  rcases hr : process_file p (o input) st.fs input
      (d.map (fun dd => batch_output_path dd input)) with ⟨res, tr⟩
  rw [hr] at h
  simp only at h
  subst h
  constructor
  · intro hc
    simp [batchLoop, hr, hc]
  · intro hc
    simp [batchLoop, hr, hc]

/-- C4 witness: a missing B.pdf is caught and recorded while the loop
continues, and a non-domain exception (a broken-stdout print) is not caught and
ends the batch. -/
theorem C4_batch_isolation_witness :
    batchLoop pOpt oracleFam none ["B.pdf", "C.pdf"] stAC =
      batchLoop pOpt oracleFam none ["C.pdf"]
        { fs := (process_file pOpt (oracleFam "B.pdf") stAC.fs "B.pdf"
            ((none : Option String).map (fun dd => batch_output_path dd "B.pdf"))).2.fs
          output_paths := stAC.output_paths
          errors := stAC.errors ++ ["Input file not found: B.pdf"] } ∧
    batchLoop pOpt oracleFamPrint none ["A.pdf"] stAC = .error (.otherExc "boom") :=
  ⟨(C4_batch_isolation.2.2.2.1 pOpt oracleFam none "B.pdf" ["C.pdf"] stAC
      (.inputFileError "Input file not found: B.pdf") rfl).1 rfl,
   (C4_batch_isolation.2.2.2.1 pOpt oracleFamPrint none "A.pdf" [] stAC
      (.otherExc "boom") rfl).2 rfl⟩

/-- C5 counterexample: when B.pdf fails inside the OCR engine, the recorded
failure entry is the bare message OCR processing failed: boom, which contains
neither the input path nor its stem - the batch records error-message strings,
not (input identifier, error message) pairs. -/
theorem C5_counterexample_entry_lacks_input_id :
    batchOutcomeErrors (process_batch pOpt oracleMixFam fsAB
        ["A.pdf", "B.pdf"] (some "out")) =
      some ["OCR processing failed: boom"] ∧
    strContains "OCR processing failed: boom" "B.pdf" = false ∧
    strContains "OCR processing failed: boom" "B" = false :=
  ⟨rfl, by decide, by decide⟩

/-- C5 (amended): a batch outcome is the ordered list of succeeded output paths
together with the ordered list of error-message strings of the failed documents
(each failed document contributes its exception message alone, with no attached
input identifier), and process_batch returns the list of succeeded output
paths. -/
theorem C5_batch_outcome :
    batchOutcomePaths (process_batch pOpt oracleMixFam fsAB
        ["A.pdf", "B.pdf"] (some "out")) = some ["out/A_searchable.pdf"] ∧
    batchOutcomeErrors (process_batch pOpt oracleMixFam fsAB
        ["A.pdf", "B.pdf"] (some "out")) = some ["OCR processing failed: boom"] ∧
    process_batch_result pOpt oracleMixFam fsAB ["A.pdf", "B.pdf"] (some "out") =
      .ok ["out/A_searchable.pdf"] ∧
    (∀ (p : PdfOcr) (o : String → RunOracle) (fs : FS) (inputs : List String)
       (d : Option String) (st : BatchState),
       process_batch p o fs inputs d = .ok st →
       process_batch_result p o fs inputs d = .ok st.output_paths) ∧
    (∀ (p : PdfOcr) (o : String → RunOracle) (d : Option String)
       (input : String) (rest : List String) (st : BatchState) (r : String),
       (process_file p (o input) st.fs input
           (d.map (fun dd => batch_output_path dd input))).1 = .ok r →
       batchLoop p o d (input :: rest) st = batchLoop p o d rest
         { fs := (process_file p (o input) st.fs input
             (d.map (fun dd => batch_output_path dd input))).2.fs
           output_paths := st.output_paths ++ [r]
           errors := st.errors }) ∧
    (∀ (p : PdfOcr) (o : String → RunOracle) (d : Option String)
       (input : String) (rest : List String) (st : BatchState) (e : Exc),
       (process_file p (o input) st.fs input
           (d.map (fun dd => batch_output_path dd input))).1 = .error e →
       batchCaught e = true →
       batchLoop p o d (input :: rest) st = batchLoop p o d rest
         { fs := (process_file p (o input) st.fs input
             (d.map (fun dd => batch_output_path dd input))).2.fs
           output_paths := st.output_paths
           errors := st.errors ++ [e.msg] }) := by
  refine ⟨rfl, rfl, rfl, ?_, ?_, ?_⟩
  · intro p o fs inputs d st h
    simp [process_batch_result, h, Except.map]
  · intro p o d input rest st r h
    rcases hr : process_file p (o input) st.fs input
        (d.map (fun dd => batch_output_path dd input)) with ⟨res, tr⟩
    rw [hr] at h
    simp only at h
    subst h
    simp [batchLoop, hr]
  · intro p o d input rest st e h hc
    rcases hr : process_file p (o input) st.fs input
        (d.map (fun dd => batch_output_path dd input)) with ⟨res, tr⟩
    rw [hr] at h
    simp only at h
    subst h
    simp [batchLoop, hr, hc]

/-- C5 witness: the return value on the concrete mixed batch, a successful
A.pdf appending its output path, and a failed B.pdf appending its bare
message. -/
theorem C5_batch_outcome_witness :
    process_batch_result pOpt oracleMixFam fsAB ["A.pdf", "B.pdf"] (some "out") =
      .ok ["out/A_searchable.pdf"] ∧
    batchLoop pOpt oracleMixFam none ["A.pdf"] stAB =
      batchLoop pOpt oracleMixFam none []
        { fs := (process_file pOpt (oracleMixFam "A.pdf") stAB.fs "A.pdf"
            ((none : Option String).map (fun dd => batch_output_path dd "A.pdf"))).2.fs
          output_paths := stAB.output_paths ++ ["A_searchable.pdf"]
          errors := stAB.errors } ∧
    batchLoop pOpt oracleMixFam none ["B.pdf"] stAB =
      batchLoop pOpt oracleMixFam none []
        { fs := (process_file pOpt (oracleMixFam "B.pdf") stAB.fs "B.pdf"
            ((none : Option String).map (fun dd => batch_output_path dd "B.pdf"))).2.fs
          output_paths := stAB.output_paths
          errors := stAB.errors ++ ["OCR processing failed: boom"] } :=
  ⟨C5_batch_outcome.2.2.1,
   C5_batch_outcome.2.2.2.2.1 pOpt oracleMixFam none "A.pdf" [] stAB
     "A_searchable.pdf" rfl,
   C5_batch_outcome.2.2.2.2.2 pOpt oracleMixFam none "B.pdf" [] stAB
     (.tesseractError "OCR processing failed: boom") rfl rfl⟩

/-- C9: two inputs with equal stems map to the identical per-document output
path under an output directory, so in a batch over a/x.pdf and b/x.pdf the
second run silently writes over the first output and the returned success list
contains the same path twice (with no failure entries). -/
theorem C9_stem_collision :
    (∀ (d i1 i2 : String), pathStem i1 = pathStem i2 →
       batch_output_path d i1 = batch_output_path d i2) ∧
    batchOutcomePaths (process_batch pOpt oracleFam fsStems
        ["a/x.pdf", "b/x.pdf"] (some "out")) =
      some ["out/x_searchable.pdf", "out/x_searchable.pdf"] ∧
    batchOutcomeErrors (process_batch pOpt oracleFam fsStems
        ["a/x.pdf", "b/x.pdf"] (some "out")) = some [] ∧
    batch_output_path "out" "a/x.pdf" = batch_output_path "out" "b/x.pdf" := by
  refine ⟨?_, rfl, rfl, rfl⟩
  intro d i1 i2 h
  simp [batch_output_path, h]

/-- C9 witness: the two same-stem inputs from different directories get the
same output path. -/
theorem C9_stem_collision_witness :
    batch_output_path "out" "a/x.pdf" = batch_output_path "out" "b/x.pdf" :=
  C9_stem_collision.1 "out" "a/x.pdf" "b/x.pdf" rfl

end OCRpdf
